import Mathlib

/-!
Verification development for the TunesParser repository.

The definitions below are a shallow embedding of the Python sources
(`src/enqueue.py`, `src/lastly.py`, `src/utilities.py`).  Pure Python
functions become Lean functions; network and console side effects become
an explicit `Effect` trace; responses of the external streaming and
scrobble services, the randomness of `random.sample` / `random.randint`,
and the contents of the local JSON files are supplied as explicit
parameters (oracles), since they are external collaborators of the core.
Machine integers are modelled as `Int`/`Nat` (no overflow is relevant:
Python integers are unbounded).
-/

/-! ## Python string semantics helpers -/

/-- Python `str(x)` for an optional string: `None` renders as `"None"`
(as it does inside an f-string). -/
def pyStr : Option String → String
  | none => "None"
  | some s => s

/-- Python truthiness of an optional string: `None` and `""` are falsy. -/
def pyTruthy : Option String → Bool
  | none => false
  | some s => s ≠ ""

/-- Python truthiness of an optional integer (`None` and `0` are falsy). -/
def pyTruthyI : Option Int → Bool
  | none => false
  | some n => n ≠ 0

/-- Python `s.lower()` (ASCII range, as used by the shortcut keys). -/
def pyLower (s : String) : String := String.mk (s.data.map Char.toLower)

/-- Characters treated as whitespace by Python `str.strip()` (the subset
relevant to the embedded inputs). -/
def pyIsWs (c : Char) : Bool := c.toNat == 32 || c.toNat == 9 || c.toNat == 10 || c.toNat == 13

/-- Python `s.strip()`. -/
def pyStrip (s : String) : String :=
  String.mk (((s.data.dropWhile pyIsWs).reverse.dropWhile pyIsWs).reverse)

/-- Whether `pat` occurs as a contiguous substring of `cs`
(Python `pat in s`). -/
def listHasSub (pat : List Char) : List Char → Bool
  | [] => pat.isEmpty
  | c :: rest => pat.isPrefixOf (c :: rest) || listHasSub pat rest

/-- Python `pat in s` for strings. -/
def pyInStr (pat s : String) : Bool := listHasSub pat.data s.data

/-- Python `uri if ':' not in uri else uri[uri.rindex(':')+1:]`:
the segment after the last colon, or the whole string if there is none. -/
def pyAfterLastColon (u : String) : String :=
  if u.data.contains ':' then String.mk ((u.data.reverse.takeWhile (fun c => c != ':')).reverse)
  else u

/-- Python `s.split(":")[-1]` (for a string that contains a colon this is
the same as `pyAfterLastColon`; for one that does not, it is the whole
string). -/
def pySplitColonLast (u : String) : String := pyAfterLastColon u

/-- Python `a or b` on optional strings: the first truthy operand,
else `b`. -/
def pyOr (a b : Option String) : Option String := if pyTruthy a then a else b

/-- Python `', '.join(l)`. -/
def pyJoin (sep : String) : List String → String
  | [] => ""
  | [s] => s
  | s :: rest => s ++ sep ++ pyJoin sep rest

/-! ## Terminal color formatting (from `src/utilities.py`)

`color(text, fg)` produces `"\033[3" + value + ";1m" + text + "\033[0m"`;
`bold(text)` is `color(text)` with no foreground. These are pure string
functions, reproduced exactly. -/

def ansiDefault : String := "\x1b[0m"

def colGreen (t : String) : String := "\x1b[32;1m" ++ t ++ ansiDefault

def colYellow (t : String) : String := "\x1b[33;1m" ++ t ++ ansiDefault

def colCyan (t : String) : String := "\x1b[36;1m" ++ t ++ ansiDefault

def colMagenta (t : String) : String := "\x1b[35;1m" ++ t ++ ansiDefault

def colWhite (t : String) : String := "\x1b[37;1m" ++ t ++ ansiDefault

def pyBold (t : String) : String := "\x1b[1m" ++ t ++ ansiDefault

/-- `color(text, Colors.RAINBOW)` / `rainbow(text)`: each character is
colored with the cycle RED..WHITE (enum values 1..7). -/
def rainbowColor (t : String) : String :=
  String.join ((t.data.zip ((List.range t.data.length).map (fun k =>
    toString (k % 7 + 1)))).map (fun p =>
      "\x1b[3" ++ p.2 ++ ";1m" ++ String.singleton p.1 ++ ansiDefault))

/-! ## JSON model

The repository's persisted tables are JSON files read with `json.load`
and written with `json.dump` (default arguments).  `json` is Python
stdlib; it is modelled here on the JSON subset the tables use
(objects, arrays, strings, numbers, booleans, null; string escapes
`\" \\ \/ \n \t \r \b \f`; no `\u` escapes).  Object key collisions
follow Python semantics (last value wins, first position kept). -/

inductive JVal where
  | str (s : String)
  | num (lexeme : String)
  | boolv (b : Bool)
  | null
  | arr (items : List JVal)
  | obj (fields : List (String × JVal))

/-- Left brace as a character (written via its code point). -/
def lbChar : Char := Char.ofNat 123

/-- Right brace as a character (written via its code point). -/
def rbChar : Char := Char.ofNat 125

/-- Python dict insertion: an existing key keeps its position and gets the
new value; a new key is appended. -/
def pyDictSet (fs : List (String × JVal)) (k : String) (v : JVal) : List (String × JVal) :=
  match fs with
  | [] => [(k, v)]
  | (k0, v0) :: rest => if k0 == k then (k0, v) :: rest else (k0, v0) :: pyDictSet rest k v

/-- Python dict key deletion (`del d[k]`), preserving the order of the
remaining keys. -/
def pyDictDel (fs : List (String × JVal)) (k : String) : List (String × JVal) :=
  match fs with
  | [] => []
  | (k0, v0) :: rest => if k0 == k then rest else (k0, v0) :: pyDictDel rest k

def jsonSkipWs (cs : List Char) : List Char :=
  cs.dropWhile (fun c => c.toNat == 32 || c.toNat == 9 || c.toNat == 10 || c.toNat == 13)

/-- Unescape a JSON string escape character. `\u` escapes are outside the
modelled subset. -/
def jsonUnesc (c : Char) : Option Char :=
  List.lookup c
    [('"', '"'), ('\\', '\\'), ('/', '/'), ('n', Char.ofNat 10), ('t', Char.ofNat 9),
     ('r', Char.ofNat 13), ('b', Char.ofNat 8), ('f', Char.ofNat 12)]

/-- Parse the body of a JSON string after the opening quote; returns the
decoded characters and the remaining input. -/
def jsonParseStr : List Char → Option (List Char × List Char)
  | [] => none
  | c :: rest =>
    if c == '"' then some ([], rest)
    else if c == '\\' then
      match rest with
      | [] => none
      | e :: rest2 =>
        match jsonUnesc e with
        | none => none
        | some d =>
          match jsonParseStr rest2 with
          | none => none
          | some (s, r) => some (d :: s, r)
    else if c.val < 32 then none
    else
      match jsonParseStr rest with
      | none => none
      | some (s, r) => some (c :: s, r)

def jsonIsDigit (c : Char) : Bool := '0' ≤ c && c ≤ '9'

/-- Parse a JSON number lexeme (sign, integer part, optional fraction and
exponent), returning the lexeme and the rest. -/
def jsonParseNum (cs : List Char) : Option (List Char × List Char) :=
  let (sign, cs1) := if cs.head? == some '-' then (['-'], cs.drop 1) else ([], cs)
  let intPart := cs1.takeWhile jsonIsDigit
  let cs2 := cs1.drop intPart.length
  if intPart.isEmpty then none
  else
    let (frac, cs3) :=
      if cs2.head? == some '.' then
        let ds := (cs2.drop 1).takeWhile jsonIsDigit
        ('.' :: ds, cs2.drop (1 + ds.length))
      else ([], cs2)
    if cs2.head? == some '.' && frac.length ≤ 1 then none
    else
      let (ex, cs4) :=
        if cs3.head? == some 'e' || cs3.head? == some 'E' then
          let s2 := if (cs3.drop 1).head? == some '+' || (cs3.drop 1).head? == some '-'
                    then cs3.take 2 else cs3.take 1
          let ds := (cs3.drop s2.length).takeWhile jsonIsDigit
          if ds.isEmpty then ([], none) else (s2 ++ ds, some (cs3.drop (s2.length + ds.length)))
        else ([], some cs3)
      match cs4 with
      | none => none
      | some rest => some (sign ++ intPart ++ frac ++ ex, rest)

mutual

/-- Fueled parser for a JSON value. -/
def jsonParseVal (fuel : Nat) (cs : List Char) : Option (JVal × List Char) :=
  match fuel with
  | 0 => none
  | fuel + 1 =>
    let cs := jsonSkipWs cs
    match cs with
    | [] => none
    | c :: rest =>
      if c == '"' then
        match jsonParseStr rest with
        | none => none
        | some (s, r) => some (JVal.str (String.mk s), r)
      else if c == 'n' then
        if rest.take 3 == ['u', 'l', 'l'] then some (JVal.null, rest.drop 3) else none
      else if c == 't' then
        if rest.take 3 == ['r', 'u', 'e'] then some (JVal.boolv true, rest.drop 3) else none
      else if c == 'f' then
        if rest.take 4 == ['a', 'l', 's', 'e'] then some (JVal.boolv false, rest.drop 4) else none
      else if c == '[' then jsonParseArr fuel (jsonSkipWs rest) true
      else if c == lbChar then jsonParseObj fuel (jsonSkipWs rest) true
      else
        match jsonParseNum (c :: rest) with
        | none => none
        | some (lx, r) => some (JVal.num (String.mk lx), r)

/-- Fueled parser for the inside of a JSON array (after `[`).
`first` is true before the first element. -/
def jsonParseArr (fuel : Nat) (cs : List Char) (first : Bool) : Option (JVal × List Char) :=
  match fuel with
  | 0 => none
  | fuel + 1 =>
    let cs := jsonSkipWs cs
    match cs with
    | [] => none
    | c :: rest =>
      if c == ']' && first then some (JVal.arr [], rest)
      else
        match jsonParseVal fuel cs with
        | none => none
        | some (v, r) =>
          let r := jsonSkipWs r
          match r with
          | [] => none
          | c2 :: rest2 =>
            if c2 == ']' then some (JVal.arr [v], rest2)
            else if c2 == ',' then
              match jsonParseArr fuel rest2 false with
              | some (JVal.arr vs, r2) => some (JVal.arr (v :: vs), r2)
              | _ => none
            else none

/-- Fueled parser for the inside of a JSON object (after the opening
brace).  `first` is true before the first member. -/
def jsonParseObj (fuel : Nat) (cs : List Char) (first : Bool) : Option (JVal × List Char) :=
  match fuel with
  | 0 => none
  | fuel + 1 =>
    let cs := jsonSkipWs cs
    match cs with
    | [] => none
    | c :: rest =>
      if c == rbChar && first then some (JVal.obj [], rest)
      else if c == '"' then
        match jsonParseStr rest with
        | none => none
        | some (k, r) =>
          let r := jsonSkipWs r
          match r with
          | [] => none
          | c2 :: rest2 =>
            if c2 == ':' then
              match jsonParseVal fuel rest2 with
              | none => none
              | some (v, r2) =>
                let r2 := jsonSkipWs r2
                match r2 with
                | [] => none
                | c3 :: rest3 =>
                  if c3 == rbChar then some (JVal.obj [(String.mk k, v)], rest3)
                  else if c3 == ',' then
                    match jsonParseObj fuel rest3 false with
                    | some (JVal.obj fs, r3) =>
                      -- duplicate keys: Python keeps the earliest position
                      -- and the latest value
                      some (JVal.obj (match List.lookup (String.mk k) fs with
                        | some v2 => (String.mk k, v2) :: pyDictDel fs (String.mk k)
                        | none => (String.mk k, v) :: fs), r3)
                    | _ => none
                  else none
            else none
      else none

end

/-- `json.load` on a whole document: parse one value and require only
whitespace to remain.  `Except.error ()` models `json.JSONDecodeError`. -/
def jsonLoad (s : String) : Except Unit JVal :=
  match jsonParseVal (s.data.length + 2) s.data with
  | none => .error ()
  | some (v, rest) => if (jsonSkipWs rest).isEmpty then .ok v else .error ()

/-- Hex digit for `\uXXXX` escapes. -/
def hexDigit (n : Nat) : Char :=
  if n < 10 then Char.ofNat (48 + n) else Char.ofNat (87 + n)

/-- `json.dump` escaping of one character (default `ensure_ascii=True`). -/
def jsonEscChar (c : Char) : String :=
  if c == '"' then "\\\""
  else if c == '\\' then "\\\\"
  else if c == '\n' then "\\n"
  else if c == '\t' then "\\t"
  else if c == '\r' then "\\r"
  else if c == Char.ofNat 8 then "\\b"
  else if c == Char.ofNat 12 then "\\f"
  else if c.val < 32 || 126 < c.val then
    String.mk ['\\', 'u', hexDigit ((c.toNat / 4096) % 16), hexDigit ((c.toNat / 256) % 16),
               hexDigit ((c.toNat / 16) % 16), hexDigit (c.toNat % 16)]
  else String.singleton c

/-- A JSON-quoted string as `json.dump` writes it. -/
def jsonQuote (s : String) : String :=
  "\"" ++ String.join (s.data.map jsonEscChar) ++ "\""

mutual

/-- `json.dump(v, f)` with default arguments: item separator `", "`,
key separator `": "`, keys in dict insertion order. -/
def jsonDump : JVal → String
  | .str s => jsonQuote s
  | .num lx => lx
  | .boolv b => if b then "true" else "false"
  | .null => "null"
  | .arr items => "[" ++ jsonDumpItems items ++ "]"
  | .obj fields => String.singleton lbChar ++ jsonDumpFields fields ++ String.singleton rbChar

def jsonDumpItems : List JVal → String
  | [] => ""
  | [v] => jsonDump v
  | v :: rest => jsonDump v ++ ", " ++ jsonDumpItems rest

def jsonDumpFields : List (String × JVal) → String
  | [] => ""
  | [(k, v)] => jsonQuote k ++ ": " ++ jsonDump v
  | (k, v) :: rest => jsonQuote k ++ ": " ++ jsonDump v ++ ", " ++ jsonDumpFields rest

end

/-! ## Data model

Python dict-shaped track records: every builder in `src/enqueue.py`
constructs a dict with the keys below (a key mapped to `None` and, for
records read back from the group file, a missing key are both modelled
as `none`). -/

structure Track where
  name : Option String
  artist : Option String
  uri : Option String
  album : Option String
  album_uri : Option String
deriving DecidableEq, Repr

def emptyTrack : Track := ⟨none, none, none, none, none⟩

/-- One entry of the scrobble service weekly-track-chart response as
shaped by `get_top_tracks` (`src/lastly.py` lines 70-74): artist text,
track name, playcount.  The playcount is modelled as `Nat`; the code
only compares playcounts for equality. -/
structure TopTrack where
  artist : String
  name : String
  plays : Nat
deriving DecidableEq, Repr

/-- `get_top_tracks` (`src/lastly.py` lines 55-85), with the HTTP fetch
factored out: `unlimited` is the shaped response list.  `last` starts at
`limit` and, when more entries exist, is extended by one for each
consecutive entry past the limit whose playcount equals that of entry
`limit - 1`; the first differing entry stops the scan (`break`).  All
call sites pass `limit ≥ 25`, matching the `Nat` subtraction
`limit - 1`. -/
def get_top_tracks (unlimited : List TopTrack) (limit : Nat) : List TopTrack :=
  let last :=
    if limit < unlimited.length then
      limit + ((unlimited.drop limit).takeWhile
        (fun l => l.plays == (unlimited.getD (limit - 1) ⟨"", "", 0⟩).plays)).length
    else limit
  unlimited.take last

/-! ## Effects

One constructor per HTTP call site / console interaction of the embedded
code.  `queueAdd u` is the `POST /me/player/queue?uri={u}` call; its
payload keeps the Python value (`none` renders as the text `None` in the
real URL).  `randint lo hi` records a `random.randint(lo, hi)` call. -/

inductive Effect where
  | getAlbum (idx : String)
  | getAlbumTracks (idx : String) (limit : Option Int)
  | getTrackInfo (idx : String)
  | getSearch (q : String) (typ : String)
  | getRecent (limit : Int)
  | getCurrent
  | lastfmTop (user : String) (limit : Int)
  | getPlaylistTotal (puri : String)
  | getPlaylistTracks (puri : String) (limit : Int) (offset : Int)
  | getMyAlbumsTotal
  | getMyAlbums (limit : Int) (offset : Int)
  | queueAdd (uri : Option String)
  | echo (msg : String)
  | wait (secs : Nat)
  | randint (lo : Int) (hi : Int)
deriving DecidableEq, Repr

/-- Network calls among the effects (everything that reaches the
streaming or scrobble service). -/
def isNetwork : Effect → Bool
  | .echo _ => false
  | .wait _ => false
  | .randint _ _ => false
  | _ => true

/-- Outcome of a run of `enqueue`: a Python return value, a process
`exit(code)`, or an uncaught exception. -/
inductive PyRet where
  | ret (tracks : Option (List Track))
  | exited (code : Int)
  | crash (msg : String)
deriving DecidableEq, Repr

/-- Outcome of one resolution branch of `enqueue`: either a resolved
track list together with the (possibly rewritten) repeat count, or an
early termination. -/
inductive Resolved where
  | go (tracks : List Track) (times : Int)
  | halt (r : PyRet)
deriving DecidableEq, Repr

/-- Raw response record of `GET /tracks/{idx}` as consumed by
`get_track` (`src/enqueue.py` lines 75-83). -/
structure RawTrack where
  uri : Option String
  name : Option String
  artists : List String
  albumName : Option String
  albumUri : Option String
deriving DecidableEq, Repr

/-- One item of an album-tracks response (`albums/{id}/tracks`). -/
structure AlbumItem where
  name : Option String
  artists : List String
  uri : Option String
deriving DecidableEq, Repr

/-- Top search hit as consumed by the title branch of `enqueue`
(lines 200-221): for track mode the `album` field of the raw hit is an
album object of which only the code stores the raw value; it is modelled
by its name. -/
structure SearchHit where
  name : Option String
  artists : List String
  albumName : Option String
  uri : Option String
  totalTracks : Option Int
deriving DecidableEq, Repr

/-- One `s.get('track', {})` record of the recently-played response
(lines 223-235); `album` is the raw album object, modelled by its
name. -/
structure RecentTrack where
  name : Option String
  artists : List String
  uri : Option String
  album : Option String
deriving DecidableEq, Repr

/-- The currently-playing item (lines 237-259). -/
structure CurrentItem where
  name : Option String
  artists : List String
  uri : Option String
  albumName : Option String
  albumUri : Option String
  albumTotal : Option Int
deriving DecidableEq, Repr

/-- External-world oracle for one `enqueue` invocation: the parsed
groups table (`.error` models a `json.JSONDecodeError`, which the code
turns into `{}`), the raw scrobble-service window, the index choice made
by `random.sample` (Python guarantees a duplicate-free in-range choice
of the requested size; theorems state those facts as hypotheses), the
per-(title, artist) search result, the service responses consumed by
each branch, and the HTTP status of each queue-append call indexed by
flat call order. -/
structure Oracle where
  groupsLoad : Except Unit (List (String × List Track))
  lastfmRaw : List TopTrack
  samplePick : List Nat
  searchUri : String → String → Option String
  trackResp : Option RawTrack
  albumName : Option String
  albumUri : Option String
  albumItems : List AlbumItem
  searchHits : List SearchHit
  searchAlbumItems : List AlbumItem
  recentItems : List RecentTrack
  currentItem : Option CurrentItem
  currentAlbumItems : List AlbumItem
  queueStatus : Nat → Nat

/-! ## `utilities.search` and `get_track` -/

/-- `search(title, artist, spotify)` from `src/utilities.py` lines
162-170.  The module-level `spotify` session is always truthy, so the
early `return` is dead; with a falsy `title` neither branch assigns
`resp` and the final `return` raises `NameError` (modelled as
`.error`). -/
def searchU (title artist : String) (O : Oracle) : List Effect × Except Unit (Option String) :=
  if title != "" && artist != "" then
    ([.getSearch (pyStrip title ++ "%20artist:" ++ pyStrip artist) "track"],
     .ok (O.searchUri title artist))
  else if title != "" then
    ([.getSearch (pyStrip title) "track"], .ok (O.searchUri title artist))
  else ([], .error ())

/-- `get_track(uri, formatted=True)` (`src/enqueue.py` lines 60-85) as
called from `enqueue`: a falsy uri returns `[{}]`; an `:album:` uri
fetches the album and its first 50 tracks; otherwise the single track is
fetched and shaped (the `formatted=False` path is not reachable from
`enqueue`). -/
def get_track (uri : Option String) (O : Oracle) : List Effect × List Track :=
  if ¬ pyTruthy uri then ([], [emptyTrack])
  else
    let u := pyStrip (uri.getD "")
    let idx := pyAfterLastColon u
    if pyInStr ":album:" u then
      ([.getAlbum idx, .getAlbumTracks idx (some 50)],
       O.albumItems.map (fun t =>
         (⟨t.name, some (pyJoin ", " t.artists), t.uri, O.albumName, O.albumUri⟩ : Track)))
    else
      ([.getTrackInfo idx],
       match O.trackResp with
       | some r => [⟨r.name, some (pyJoin ", " r.artists), r.uri, r.albumName, r.albumUri⟩]
       | none => [])

/-! ## `enqueue` resolution branches (`src/enqueue.py` lines 175-259) -/

/-- Element-wise construction of the remote-user track list
(line 192): each sampled entry issues one search call, left to right;
a `NameError` inside `search` aborts the comprehension after the
already-issued calls.  The dict is `{"uri": search(...), **td}`; the
unused `plays` key of `td` is dropped by the `Track` record. -/
def userBuild (sampled : List TopTrack) (O : Oracle) : List Effect × Except Unit (List Track) :=
  match sampled with
  | [] => ([], .ok [])
  | td :: rest =>
    let (e1, r1) := searchU td.name td.artist O
    match r1 with
    | .error _ => (e1, .error ())
    | .ok u =>
      let (e2, r2) := userBuild rest O
      (e1 ++ e2,
       match r2 with
       | .error _ => .error ()
       | .ok ts => .ok ((⟨some td.name, some td.artist, u, none, none⟩ : Track) :: ts))

/-- The `elif user:` branch (lines 190-195): fetch the top-tracks window
with `limit=max(50, times)`, then `random.sample(track_data, times)` —
which raises `ValueError` when `times` is negative or exceeds the window
size — then resolve each sampled entry through search; finally the
repeat count collapses (`if times > 0: times = 1`). -/
def enqueueUser (user : String) (times : Int) (O : Oracle) : List Effect × Resolved :=
  let track_data := get_top_tracks O.lastfmRaw (max 50 times).toNat
  let eff0 := [Effect.lastfmTop user (max 50 times)]
  if times < 0 || (track_data.length : Int) < times then
    (eff0, .halt (.crash "Sample larger than population or is negative"))
  else
    let sampled := O.samplePick.filterMap (fun i => track_data[i]?)
    let (e1, built) := userBuild sampled O
    match built with
    | .error _ => (eff0 ++ e1, .halt (.crash "NameError"))
    | .ok tracks => (eff0 ++ e1, .go tracks (if 0 < times then 1 else times))

/-- Python `mode[:-1]`. -/
def pyModeSingular (m : String) : String := String.mk m.data.dropLast

/-- The `elif title or uri:` branch (lines 196-221). -/
def enqueueTitleUri (title artist uri : Option String) (times : Int) (mode : String)
    (O : Oracle) : List Effect × Resolved :=
  if pyTruthy uri then
    let (eff, tks) := get_track uri O
    (eff, .go tks times)
  else
    let q := if pyTruthy artist then pyStr title ++ "%20artist:" ++ pyStr artist else pyStr title
    let eff0 := [Effect.getSearch q (pyModeSingular mode)]
    match O.searchHits.head? with
    | some data =>
      if mode == "albums" then
        match data.uri with
        | none => (eff0, .halt (.crash "AttributeError"))
        | some du =>
          (eff0 ++ [.getAlbumTracks (pySplitColonLast du) data.totalTracks],
           .go (O.searchAlbumItems.map (fun t =>
             (⟨t.name, some (pyJoin ", " t.artists), t.uri, data.name, data.uri⟩ : Track))) times)
      else
        (eff0, .go [⟨data.name, some (pyJoin ", " data.artists), data.uri, data.albumName, none⟩]
          times)
    | none => (eff0, .go [] times)

/-- The `elif last:` branch (lines 222-235): the recently-played fetch
happens first; only then is album mode rejected with `exit(0)`.  In
track mode the items are reversed to chronological order; the shaped
dict sets `album_uri` to the track uri, as the source does. -/
def enqueueLast (lastN : Int) (mode : String) (times : Int) (O : Oracle) :
    List Effect × Resolved :=
  let eff0 := [Effect.getRecent lastN]
  let responses := O.recentItems.reverse
  if mode != "tracks" then
    (eff0 ++ [.echo "Can only re-queue tracks, not albums!"], .halt (.exited 0))
  else
    (eff0, .go (responses.map (fun d =>
      (⟨d.name, some (pyJoin ", " d.artists), d.uri, d.album, d.uri⟩ : Track))) times)

/-- The fallback branch (lines 236-259): use the currently-playing item;
nothing playing reports and exits with code 1; album mode expands the
containing album (an absent album uri makes `.split` raise). -/
def enqueueCurrent (mode : String) (times : Int) (O : Oracle) : List Effect × Resolved :=
  let eff0 := [Effect.getCurrent]
  match O.currentItem with
  | none => (eff0 ++ [.echo "No track currently playing!"], .halt (.exited 1))
  | some d =>
    if mode == "albums" then
      match d.albumUri with
      | none => (eff0, .halt (.crash "AttributeError"))
      | some au =>
        (eff0 ++ [.getAlbumTracks (pySplitColonLast au) d.albumTotal],
         .go (O.currentAlbumItems.map (fun t =>
           (⟨t.name, some (pyJoin ", " t.artists), t.uri, d.albumName, d.albumUri⟩ : Track)))
          times)
    else
      (eff0, .go [⟨d.name, some (pyJoin ", " d.artists), d.uri, d.albumName, d.albumUri⟩] times)

/-! ## Queue Engine (`src/enqueue.py` lines 261-281) -/

/-- `track_format` from `src/utilities.py` lines 197-204 on the dicts
built by `enqueue`: a falsy `artist` value falls back to joining the
(absent) `artists` key, i.e. the empty string. -/
def trackFormat (t : Track) : String :=
  let artistPart := match t.artist with
    | some a => if a == "" then "" else a
    | none => ""
  colGreen (pyStr t.name) ++ " by " ++ colYellow artistPart

/-- `album_format` (colored form) on a queued track dict: the `album`
value is a string or `None`; on `None` the source calls `.get` on it and
raises `AttributeError` (modelled as `.error`). -/
def albumFormatE (t : Track) : Except Unit String :=
  match t.album with
  | some s => .ok (colCyan s ++ " by " ++ colYellow (pyStr t.artist))
  | none => .error ()

def lastHeader (lastN : Int) (tracks : List Track) (times : Int) : String :=
  "Adding " ++ pyBold (toString lastN) ++ " last played item(s) (" ++
    pyJoin ", " (tracks.map trackFormat) ++ ") to queue " ++
    pyBold (toString times ++ "x") ++ "!"

def tracksHeader (tracks : List Track) (times : Int) : String :=
  "Adding " ++ pyJoin ", " (tracks.map trackFormat) ++ " to queue " ++
    pyBold (toString times ++ "x") ++ "!"

def albumHeader (fmt : String) (n : Nat) (times : Int) : String :=
  "Adding album " ++ fmt ++ " (" ++ pyBold (toString n ++ " tracks") ++ ") to queue " ++
    toString times ++ "x!"

/-- The failure line printed for a queue-append call with
`status_code >= 300` (line 277). -/
def failLine (t : Track) (code : Nat) : String :=
  "Failed to add " ++ colGreen (pyStr t.name) ++ " by " ++ colYellow (pyStr t.artist) ++
    " to queue (status code: " ++ toString code ++ ")"

/-- The flattened iteration of the nested queue loop (lines 273-274):
`times` outer iterations, each walking the whole track list in order. -/
def enqueueAttempts (tracks : List Track) (times : Int) : List Track :=
  (List.range times.toNat).flatMap (fun _ => tracks)

/-- The queue loop body from call counter `i`: each call posts the
track's uri, and prints the failure line exactly when the status oracle
answers `>= 300`; the loop never stops early (lines 273-277). -/
def queueCallsAux (status : Nat → Nat) : List Track → Nat → List Effect
  | [], _ => []
  | t :: rest, i =>
    Effect.queueAdd t.uri ::
      ((if 300 ≤ status i then [Effect.echo (failLine t (status i))] else []) ++
        queueCallsAux status rest (i + 1))

/-- All effects of the queue loop, the status oracle indexed by flat
call order. -/
def queueCalls (tracks : List Track) (times : Int) (status : Nat → Nat) : List Effect :=
  queueCallsAux status (enqueueAttempts tracks times) 0

/-- Lines 261-281 of `enqueue`: the `ignore` early return, the header
print per mode (the album header computes `album_format(tracks[0])`,
which raises when the album value is `None`, and sleeps 2 seconds), the
queue loop, and the `"Could not find track(s)!"` report for an empty
resolution. -/
def queuePhase (ignore : Bool) (tracks : List Track) (times : Int) (lastArg : Option Int)
    (mode : String) (O : Oracle) : List Effect × PyRet :=
  if ignore then ([], .ret (some tracks))
  else
    match tracks with
    | [] => ([.echo "Could not find track(s)!"], .ret none)
    | t0 :: _ =>
      let hdr : Except Unit (List Effect) :=
        if pyTruthyI lastArg then .ok [.echo (lastHeader (lastArg.getD 0) tracks times)]
        else if mode == "tracks" then .ok [.echo (tracksHeader tracks times)]
        else if mode == "albums" then
          match albumFormatE t0 with
          | .ok s => .ok [.echo (albumHeader s tracks.length times), .wait 2]
          | .error _ => .error ()
        else .ok []
      match hdr with
      | .error _ => ([], .crash "AttributeError")
      | .ok hs => (hs ++ queueCalls tracks times O.queueStatus, .ret (some tracks))

/-- `enqueue` (`src/enqueue.py` lines 175-281): branch precedence
`group` > `user` > `title or uri` > `last` > currently playing, then the
queue phase. -/
def enqueue (title artist : Option String) (times : Int) (lastArg : Option Int)
    (group : Option String) (user : String) (uri : Option String)
    (ignore : Bool) (mode : String) (O : Oracle) : List Effect × PyRet :=
  let step : List Effect × Resolved :=
    if pyTruthy group then
      let groups := match O.groupsLoad with | .ok gs => gs | .error _ => []
      (([] : List Effect), .go ((List.lookup (group.getD "") groups).getD []) times)
    else if user != "" then enqueueUser user times O
    else if pyTruthy title || pyTruthy uri then enqueueTitleUri title artist uri times mode O
    else if pyTruthyI lastArg then enqueueLast (lastArg.getD 0) mode times O
    else enqueueCurrent mode times O
  match step.2 with
  | .halt r => (step.1, r)
  | .go tks tm =>
    let (qeff, ret) := queuePhase ignore tks tm lastArg mode O
    (step.1 ++ qeff, ret)

/-! ## Shortcut table (`remember_track`, `src/enqueue.py` lines 283-312) -/

def PART_SEPARATOR : String := "<--|-->"

/-- Initial/default memory of `remember_track` (line 284): note the
`albums`-first key order, which fixes the bytes written on fallback. -/
def rememberDefaultMem : JVal := .obj [("albums", .obj []), ("tracks", .obj [])]

/-- Default memory used in the main `queue_track` path (line 568):
`tracks`-first key order. -/
def mainDefaultMem : JVal := .obj [("tracks", .obj []), ("albums", .obj [])]

/-- Python `d.get(k, dflt)` on a JSON value; a non-dict receiver raises
`AttributeError`. -/
def jObjGet (v : JVal) (k : String) (dflt : JVal) : Except String JVal :=
  match v with
  | .obj fs => .ok ((List.lookup k fs).getD dflt)
  | _ => .error "AttributeError"

/-- Python `d.get(k, dflt)` where the stored value is a string or `null`
(the leaf shape of the shortcut records); other stored shapes are
outside the model. -/
def jGetStr (v : JVal) (k : String) (dflt : Option String) : Except String (Option String) :=
  match v with
  | .obj fs =>
    match List.lookup k fs with
    | none => .ok dflt
    | some (.str s) => .ok (some s)
    | some .null => .ok none
    | some _ => .error "non-string leaf outside model"
  | _ => .error "AttributeError"

/-- Python `v[k]`: `KeyError` on a missing key, `TypeError` on a
non-dict receiver. -/
def pyIndexJ (v : JVal) (k : String) : Except String JVal :=
  match v with
  | .obj fs =>
    match List.lookup k fs with
    | some x => .ok x
    | none => .error "KeyError"
  | _ => .error "TypeError"

/-- Update the value of an existing key of a JSON object in place. -/
def jSetKey (v : JVal) (k : String) (nv : JVal) : JVal :=
  match v with
  | .obj fs => .obj (pyDictSet fs k nv)
  | _ => v

def jOptStr : Option String → JVal
  | some s => .str s
  | none => .null

/-- The "not found" report of the forget path (line 300), including the
source's missing space before `by`. -/
def notFoundShortcutMsg (title artist : Option String) : String :=
  "Could not find any existing shortcuts for " ++ pyStr title ++
    (if pyTruthy artist then "by " ++ artist.getD "" else "") ++ "!"

/-- `remember_track(title, artist, track, mode, delete)` (lines 283-312).
`file` is the shortcuts file: `none` when absent (then the default
memory is used), otherwise its byte content, parsed with `json.load`
(a parse failure falls back to the default memory via the bare
`except`).  The result is the byte content written back by the final
`json.dump`, or the uncaught exception (`KeyError` when
`memory[mode]` is missing — raised before the file is rewritten).
A `track` of `none` models a falsy track argument. -/
def rememberTrack (file : Option String) (title artist : Option String)
    (track : Option Track) (mode : String) (delete : Bool) :
    List Effect × Except String String :=
  let memory : JVal :=
    match file with
    | none => rememberDefaultMem
    | some s => match jsonLoad s with | .ok v => v | .error _ => rememberDefaultMem
  let memKey := pyLower (title.getD "") ++ PART_SEPARATOR ++ pyLower (artist.getD "")
  if delete then
    match pyIndexJ memory mode with
    | .error e => ([], .error e)
    | .ok tbl =>
      match tbl with
      | .obj fs =>
        if (List.lookup memKey fs).isSome then
          ([], .ok (jsonDump (jSetKey memory mode (JVal.obj (pyDictDel fs memKey)))))
        else
          ([.echo (notFoundShortcutMsg title artist)], .ok (jsonDump memory))
      | _ => ([], .error "membership test on non-dict outside model")
  else
    match track with
    | some tr =>
      match pyIndexJ memory mode with
      | .error e => ([], .error e)
      | .ok tbl =>
        match tbl with
        | .obj fs =>
          match tr.album with
          | none => ([], .error "AttributeError")
          | some alb =>
            let recd := JVal.obj [("name", jOptStr tr.name), ("artist", jOptStr tr.artist),
              ("album", JVal.str alb),
              ("relevant_uri", jOptStr (if mode == "tracks" then tr.uri else tr.album_uri))]
            ([], .ok (jsonDump (jSetKey memory mode (JVal.obj (pyDictSet fs memKey recd)))))
        | _ => ([], .error "assignment on non-dict outside model")
    | none =>
      ([.echo "New shortcuts must have a track or album!"], .ok (jsonDump memory))

/-! ## `load_prefs` (`src/enqueue.py` lines 35-52) -/

/-- The default preferences document written on first run
(lines 40-49). -/
def defaultPrefsJ : JVal :=
  .obj [("PLAYLISTS", .obj [("DEFAULT", .str ""), ("PRIMARY", .str ""),
          ("BACKLOG", .str ""), ("SHARED", .str "")]),
        ("LASTFM_USER", .str ""),
        ("LASTFM_WATCH_USER", .str "Nathansbud")]

/-- `load_prefs()`: each argument is the byte content of the groups /
preferences file (or `none` when the file is missing, in which case the
default document is first written).  The first component is the pair of
effective file contents after the bootstrap writes; the second is the
result of the two unguarded `json.load` calls — a parse failure is an
uncaught `json.JSONDecodeError` (the groups file is loaded first). -/
def load_prefs (groupFile prefsFile : Option String) :
    (String × String) × Except Unit (JVal × JVal) :=
  let gContent := match groupFile with | none => jsonDump (JVal.obj []) | some s => s
  let pContent := match prefsFile with | none => jsonDump defaultPrefsJ | some s => s
  ((gContent, pContent),
   match jsonLoad gContent with
   | .error _ => .error ()
   | .ok g =>
     match jsonLoad pContent with
     | .error _ => .error ()
     | .ok p => .ok (g, p))

/-! ## Shortcut interception in `queue_track` (lines 563-588) -/

/-- Lines 563-577 of `queue_track`: open the shortcuts file (`open`
raises `FileNotFoundError` when it is absent — only the `json.load` is
guarded), build the composite key, look up the remembered object in the
mode table and compute the `(title, artist, uri)` triple that is passed
to `enqueue`.  `--amnesia` guards the title and artist overrides but not
the uri line: `uri = args.uri or mobject.get('uri') or
mobject.get('relevant_uri')`. -/
def queueTrackResolve (shortFile : Option String)
    (argsTitle argsArtist argsUri : Option String) (amnesia : Bool) (mode : String) :
    Except String (Option String × Option String × Option String) :=
  match shortFile with
  | none => .error "FileNotFoundError"
  | some content =>
    let memory : JVal :=
      match jsonLoad content with | .ok v => v | .error _ => mainDefaultMem
    let memoryKey :=
      if ¬ pyTruthy argsTitle then ""
      else pyLower (argsTitle.getD "") ++ PART_SEPARATOR ++ pyLower (argsArtist.getD "")
    match jObjGet memory mode (JVal.obj []) with
    | .error e => .error e
    | .ok m1 =>
      match jObjGet m1 memoryKey (JVal.obj []) with
      | .error e => .error e
      | .ok mobject =>
        match jGetStr mobject "artist" argsArtist, jGetStr mobject "name" argsTitle,
              jGetStr mobject "uri" none, jGetStr mobject "relevant_uri" none with
        | .ok remArtist, .ok remTitle, .ok mu, .ok mru =>
          let artist := if ¬ amnesia then remArtist else argsArtist
          let title := if ¬ amnesia then remTitle else argsTitle
          let uri := pyOr argsUri (pyOr mu mru)
          .ok (title, artist, uri)
        | .error e, _, _, _ => .error e
        | _, .error e, _, _ => .error e
        | _, _, .error e, _ => .error e
        | _, _, _, .error e => .error e

/-- The main queue path of `queue_track`: shortcut interception followed
by the `enqueue` call with the resulting title/artist/uri
(lines 578-588). -/
def queueTrackGo (shortFile : Option String)
    (argsTitle argsArtist argsUri : Option String) (amnesia : Bool) (mode : String)
    (times : Int) (lastArg : Option Int) (group : Option String) (user : String)
    (ignore : Bool) (O : Oracle) : List Effect × PyRet :=
  match queueTrackResolve shortFile argsTitle argsArtist argsUri amnesia mode with
  | .error e => ([], .crash e)
  | .ok (t, a, u) => enqueue t a times lastArg group user u ignore mode O

/-! ## Source browsing (`queue_track`, lines 428-485) -/

/-- Python `s.upper()` (ASCII range). -/
def pyUpper (s : String) : String := String.mk (s.data.map Char.toUpper)

/-- One album entry of a browse response: the fields observed by
`album_format(..., use_color=False)` and the uri handed to
`args.uri`. -/
structure BItem where
  albumName : Option String
  albumArtist : Option String
  albumUri : Option String
deriving DecidableEq, Repr

/-- Oracle for one source-browse pass: the service totals, the value
returned by `random.randint(0, count - 1)`, the fetched items and the
interactive selection (`none` models a canceled dropdown). -/
structure BrowseOracle where
  backlogTotal : Int
  libraryTotal : Int
  randVal : Int
  backlogItems : List BItem
  libraryItems : List BItem
  dropdownPick : Option Nat
deriving Repr

inductive BrowseRet where
  | setUri (u : Option String)
  | exited (code : Int)
  | crash (msg : String)
deriving DecidableEq, Repr

def backlogRandMsg1 (count idx : Int) : String :=
  "Choosing a " ++ rainbowColor "random" ++ " backlog album from the " ++ toString count ++
    " available...how about #" ++ pyBold (toString idx) ++ "?"

def backlogRandMsgN (ran count idx : Int) : String :=
  "Choosing " ++ pyBold (toString ran) ++ " backlog albums from a " ++ rainbowColor "random" ++
    " offset of the " ++ toString count ++ " available...#" ++ pyBold (toString idx) ++ "?"

def libraryRandMsg1 (count idx : Int) : String :=
  "Choosing a " ++ rainbowColor "random" ++ " library album from the " ++ toString count ++
    " available...how about #" ++ pyBold (toString idx) ++ "?"

def libraryRandMsgN (ran count idx : Int) : String :=
  "Choosing " ++ colWhite (toString ran) ++ " library albums from a " ++ rainbowColor "random" ++
    " offset of the " ++ toString count ++ " available...#" ++ pyBold (toString idx) ++ "?"

/-- The locally-hosted album rejection of the backlog branch
(line 462). -/
def localAlbumMsg (idx : Int) (name : Option String) : String :=
  "Can\x27t queue album " ++ toString idx ++ "; " ++ pyStr name ++
    " is hosted locally, and can\x27t be queued via API!"

/-- The interactive selection step shared by both browse branches
(`dropdown` over the reversed items followed by the index flip): `none`
models a canceled menu, which exits cleanly; otherwise the selected
index is flipped back to the non-reversed item list.  Dropdown key
collisions (two identically formatted albums) are outside the model. -/
def browseSelect (ran : Int) (items : List BItem) (pick : Option Nat) : Except Int Nat :=
  if 1 < ran then
    match pick with
    | none => .error 0
    | some p =>
      let osel : Int := min ran (items.length : Int) - 1 - (p : Int)
      if osel < 0 then .error 0 else .ok osel.toNat
  else .ok 0

/-- Lines 428-485 of `queue_track`: the LIBRARY / BACKLOG browse.
The requested index comes from `args.offset[0] or -1` — so a requested
`0` is falsy and collapses to `-1` — and the range width from
`args.offset[1]`.  When the index is not strictly inside
`(-1, count)`, a uniformly random index is drawn via
`random.randint(0, count - 1)` and reported; otherwise the backlog
branch uses `count - idx` and the library branch uses `idx`
directly. -/
def sourceBrowse (source : String) (offset : List Int) (backlogUri : Option String)
    (B : BrowseOracle) : List Effect × BrowseRet :=
  let src := pyUpper source
  if src != "LIBRARY" && src != "BACKLOG" then
    ([.echo "Source must be one of: LIBRARY, BACKLOG"], .exited 1)
  else
    let idx0 : Int := match offset with | [] => -1 | o :: _ => if o == 0 then -1 else o
    let ran : Int := match offset with | _ :: r :: _ => r | _ => 1
    if src == "BACKLOG" && pyTruthy backlogUri then
      let puri := backlogUri.getD ""
      let count := B.backlogTotal
      let (idx, effR) :=
        if ¬ (idx0 < count && -1 < idx0) then
          (B.randVal, [Effect.randint 0 (count - 1),
            .echo (if ran == 1 then backlogRandMsg1 count B.randVal
                   else backlogRandMsgN ran count B.randVal)])
        else (count - idx0, ([] : List Effect))
      let eff := [Effect.getPlaylistTotal puri] ++ effR ++
        [Effect.getPlaylistTracks puri ran (idx - ran + 1)]
      match browseSelect ran B.backlogItems B.dropdownPick with
      | .error c => (eff, .exited c)
      | .ok osel =>
        match B.backlogItems.get? osel with
        | none => (eff, .crash "IndexError")
        | some it =>
          if pyTruthy it.albumUri then (eff, .setUri it.albumUri)
          else (eff ++ [.echo (localAlbumMsg idx it.albumName)], .exited 0)
    else if src == "LIBRARY" then
      let count := B.libraryTotal
      let (idx, effR) :=
        if ¬ (idx0 < count && -1 < idx0) then
          (B.randVal, [Effect.randint 0 (count - 1),
            .echo (if ran == 1 then libraryRandMsg1 count B.randVal
                   else libraryRandMsgN ran count B.randVal)])
        else (idx0, ([] : List Effect))
      let eff := [Effect.getMyAlbumsTotal] ++ effR ++ [Effect.getMyAlbums ran idx]
      match browseSelect ran B.libraryItems B.dropdownPick with
      | .error c => (eff, .exited c)
      | .ok osel =>
        match B.libraryItems.get? osel with
        | none => (eff, .crash "IndexError")
        | some it => (eff, .setUri it.albumUri)
    else
      ([.echo ("Could not locate an album backlog playlist; " ++
        "try adding a BACKLOG to PLAYLISTS in preferences.json?")], .exited 1)

/-! ## Trace extractors -/

/-- The uris of the queue-append calls of a trace, in order. -/
def queueAddsOf (l : List Effect) : List (Option String) :=
  l.filterMap (fun e => match e with | .queueAdd u => some u | _ => none)

/-- The console lines of a trace, in order. -/
def echoesOf (l : List Effect) : List String :=
  l.filterMap (fun e => match e with | .echo m => some m | _ => none)

/-- The queue-phase header computation succeeds (the only failing case
is an album-mode batch whose first track carries a `None` album value,
where `album_format` raises; the spec data model gives every resolved
Track a string album). -/
def queueHeaderOk (tracks : List Track) (lastArg : Option Int) (mode : String) : Bool :=
  match tracks with
  | [] => true
  | t0 :: _ =>
    pyTruthyI lastArg || mode == "tracks" || !(mode == "albums") || t0.album.isSome

/-! ## Concrete instances used to settle the claims -/

/-- An oracle whose service answers are all empty and whose queue calls
all succeed with status 200. -/
def stubOracle : Oracle :=
  ⟨.ok [], [], [], fun _ _ => none, none, none, none, [], [], [], [], none, [], fun _ => 200⟩

/-- Remote-user scenario: a top-tracks window holding a single entry. -/
def c4Oracle : Oracle :=
  ⟨.ok [], [⟨"a", "n", 5⟩], [], fun _ _ => none, none, none, none, [], [], [], [], none, [],
   fun _ => 200⟩

/-- Remote-user scenario for the amended C4 witness: a one-entry window,
the sample drawing position 0, the search succeeding. -/
def c4wOracle : Oracle :=
  ⟨.ok [], [⟨"a", "n", 5⟩], [0], fun _ _ => some "spotify:track:77", none, none, none, [], [],
   [], [], none, [], fun _ => 200⟩

/-- Remote-user scenario: one sampled entry whose search yields no
uri. -/
def c6Oracle : Oracle :=
  ⟨.ok [], [⟨"ar", "nm", 3⟩], [0], fun _ _ => none, none, none, none, [], [], [], [], none, [],
   fun _ => 200⟩

/-- A shortcuts file holding one track-mode shortcut for
`("blank space", "taylor swift")` with `relevant_uri = "spotify:track:123"`
(written in canonical `json.dump` form). -/
def c2ShortcutFile : String :=
  jsonDump (JVal.obj [("albums", JVal.obj []),
    ("tracks", JVal.obj [("blank space" ++ PART_SEPARATOR ++ "taylor swift",
      JVal.obj [("name", JVal.str "Blank Space"), ("artist", JVal.str "Taylor Swift"),
        ("album", JVal.str "1989"), ("relevant_uri", JVal.str "spotify:track:123")])])])

/-- The service response for `GET /tracks/123` in the C2 scenario. -/
def c2Oracle : Oracle :=
  ⟨.ok [], [], [], fun _ _ => none,
   some ⟨some "spotify:track:123", some "Blank Space", ["Taylor Swift"], some "1989",
     some "spotify:album:9"⟩,
   none, none, [], [], [], [], none, [], fun _ => 200⟩

/-- The track shaped from the `GET /tracks/123` response above. -/
def c2Track : Track :=
  ⟨some "Blank Space", some "Taylor Swift", some "spotify:track:123", some "1989",
   some "spotify:album:9"⟩

/-- A browse oracle: a library of 10 albums, `randint` answering 7. -/
def c8Browse : BrowseOracle := ⟨0, 10, 7, [], [⟨some "A", some "B", some "u:1"⟩], none⟩

/-! ## Helper lemmas -/

lemma queueAddsOf_append (a b : List Effect) :
    queueAddsOf (a ++ b) = queueAddsOf a ++ queueAddsOf b := by
  simp [queueAddsOf]

lemma echoesOf_append (a b : List Effect) :
    echoesOf (a ++ b) = echoesOf a ++ echoesOf b := by
  simp [echoesOf]

/-- The queue loop posts exactly the uris of the attempted tracks, in
order, independently of the statuses. -/
lemma queueAddsOf_queueCallsAux (status : Nat → Nat) :
    ∀ (l : List Track) (i : Nat),
      queueAddsOf (queueCallsAux status l i) = l.map Track.uri := by
  intro l
  induction l with
  | nil => intro i; rfl
  | cons t rest ih =>
    intro i
    by_cases h : 300 ≤ status i <;>
      simp [queueCallsAux, h, queueAddsOf, ih (i + 1)] <;>
      simpa [queueAddsOf] using ih (i + 1)

/-- The queue loop prints exactly one failure line per call whose status
is `>= 300`, naming that call's track and status. -/
lemma echoesOf_queueCallsAux (status : Nat → Nat) :
    ∀ (l : List Track) (i : Nat),
      echoesOf (queueCallsAux status l i) =
        ((List.enumFrom i l).filter (fun p => 300 ≤ status p.1)).map
          (fun p => failLine p.2 (status p.1)) := by
  intro l
  induction l with
  | nil => intro i; rfl
  | cons t rest ih =>
    intro i
    by_cases h : 300 ≤ status i <;>
      simp [queueCallsAux, h, echoesOf, List.enumFrom, List.filter, ih (i + 1)] <;>
      simpa [echoesOf] using ih (i + 1)

lemma flatten_replicate_append {α : Type} (n : Nat) (l : List α) :
    (List.replicate n l).flatten ++ l = l ++ (List.replicate n l).flatten := by
  induction n with
  | zero => simp
  | succ k ih =>
    simp only [List.replicate_succ, List.flatten_cons, List.append_assoc, ih]

/-- Repeating a list `n` times via `range`/`flatMap` is the flattening of
`n` replicas. -/
lemma enqueueAttempts_eq_flatten (tracks : List Track) (times : Int) :
    enqueueAttempts tracks times = (List.replicate times.toNat tracks).flatten := by
  unfold enqueueAttempts
  induction times.toNat with
  | zero => rfl
  | succ k ih =>
    rw [List.range_succ, List.flatMap_append, ih, List.replicate_succ, List.flatten_cons]
    simpa using flatten_replicate_append k tracks

lemma length_flatten_replicate {α : Type} (n : Nat) (l : List α) :
    (List.replicate n l).flatten.length = n * l.length := by
  induction n with
  | zero => simp
  | succ k ih => simp [List.replicate_succ, ih, Nat.succ_mul, Nat.add_comm]

lemma map_flatten_replicate {α β : Type} (f : α → β) (n : Nat) (l : List α) :
    ((List.replicate n l).flatten).map f = (List.replicate n (l.map f)).flatten := by
  induction n with
  | zero => rfl
  | succ k ih => simp [List.replicate_succ, ih]

/-- Elements of `takeWhile` coincide with the original list and satisfy
the predicate. -/
lemma takeWhile_getD {α : Type} (p : α → Bool) :
    ∀ (l : List α) (k : Nat) (d : α), k < (l.takeWhile p).length →
      (l.takeWhile p).getD k d = l.getD k d ∧ p (l.getD k d) = true := by
  intro l
  induction l with
  | nil => intro k d h; simp [List.takeWhile] at h
  | cons c rest ih =>
    intro k d h
    by_cases hc : p c
    · cases k with
      | zero => simp [List.takeWhile, hc]
      | succ k2 =>
        have h2 : k2 < (rest.takeWhile p).length := by
          simpa [List.takeWhile, hc] using h
        simpa [List.takeWhile, hc] using ih k2 d h2
    · simp [List.takeWhile, hc] at h

/-- The first element after a `takeWhile` block (when one exists) falsifies
the predicate — the `break` point of the source loop. -/
lemma takeWhile_stop {α : Type} (p : α → Bool) :
    ∀ (l : List α) (d : α), (l.takeWhile p).length < l.length →
      p (l.getD (l.takeWhile p).length d) = false := by
  intro l
  induction l with
  | nil => intro d h; simp at h
  | cons c rest ih =>
    intro d h
    by_cases hc : p c
    · have h2 : (rest.takeWhile p).length < rest.length := by
        simpa [List.takeWhile, hc] using h
      simpa [List.takeWhile, hc] using ih d h2
    · simp [List.takeWhile, hc]

lemma getD_drop {α : Type} :
    ∀ (m : Nat) (l : List α) (k : Nat) (d : α), (l.drop m).getD k d = l.getD (m + k) d := by
  intro m
  induction m with
  | zero => intro l k d; simp
  | succ m2 ih =>
    intro l k d
    cases l with
    | nil => simp
    | cons c rest =>
      rw [List.drop_succ_cons, ih rest k d, Nat.succ_add]
      rfl

/-- Every attempted track produces a queue-append call carrying exactly
its uri value, whatever that value is. -/
lemma queueAdd_mem_queueCallsAux (status : Nat → Nat) (t : Track) :
    ∀ (l : List Track) (i : Nat), t ∈ l →
      Effect.queueAdd t.uri ∈ queueCallsAux status l i := by
  intro l
  induction l with
  | nil => intro i h; simp at h
  | cons c rest ih =>
    intro i h
    rcases List.mem_cons.mp h with h1 | h2
    · subst h1; simp [queueCallsAux]
    · simp only [queueCallsAux, List.mem_cons, List.mem_append]
      exact Or.inr (Or.inr (ih (i + 1) h2))

/-- Under in-range indices, the `filterMap` over `get?` used to model the
sampled selection is a total `map`. -/
lemma filterMap_get?_eq_map {α : Type} (w : List α) (d : α) :
    ∀ (pick : List Nat), (∀ i ∈ pick, i < w.length) →
      pick.filterMap (fun i => w[i]?) = pick.map (fun i => w.getD i d) := by
  intro pick
  induction pick with
  | nil => intro _; rfl
  | cons p rest ih =>
    intro h
    have hp : p < w.length := h p (List.mem_cons_self p rest)
    have hrest : ∀ i ∈ rest, i < w.length := fun i hi => h i (List.mem_cons_of_mem p hi)
    have hsome : w[p]? = some (w.getD p d) := by
      rw [List.getElem?_eq_getElem hp]
      simp [List.getD_eq_getElem?_getD, List.getElem?_eq_getElem hp]
    rw [List.filterMap_cons, hsome, ih hrest, List.map_cons]

/-- `userBuild` never raises when every sampled entry has a nonempty
name, and returns one shaped track per sampled entry, in order. -/
lemma userBuild_ok (O : Oracle) :
    ∀ (sampled : List TopTrack), (∀ td ∈ sampled, td.name ≠ "") →
      (userBuild sampled O).2 = .ok (sampled.map (fun td =>
        (⟨some td.name, some td.artist, O.searchUri td.name td.artist, none, none⟩ : Track))) := by
  intro sampled
  induction sampled with
  | nil => intro _; rfl
  | cons td rest ih =>
    intro h
    have hn : td.name ≠ "" := h td (List.mem_cons_self td rest)
    have hrest := fun td2 h2 => h td2 (List.mem_cons_of_mem td h2)
    by_cases ha : td.artist = "" <;>
      simp [userBuild, searchU, hn, ha, ih hrest]

lemma flatten_replicate_nil {α : Type} (n : Nat) :
    (List.replicate n ([] : List α)).flatten = [] := by
  induction n with
  | zero => rfl
  | succ k ih => simp [List.replicate_succ, ih]

/-- The queue phase posts exactly `times` rounds of the track list's
uris, regardless of statuses, headers and repeat count. -/
lemma queueAddsOf_queuePhase (tracks : List Track) (times : Int) (lastArg : Option Int)
    (mode : String) (O : Oracle) (hok : queueHeaderOk tracks lastArg mode = true) :
    queueAddsOf (queuePhase false tracks times lastArg mode O).1 =
      (List.replicate times.toNat (tracks.map Track.uri)).flatten := by
  have key : queueAddsOf (queueCalls tracks times O.queueStatus) =
      (List.replicate times.toNat (tracks.map Track.uri)).flatten := by
    rw [queueCalls, queueAddsOf_queueCallsAux, enqueueAttempts_eq_flatten,
      map_flatten_replicate]
  cases tracks with
  | nil => simp [queuePhase, queueAddsOf, flatten_replicate_nil]
  | cons t0 rest =>
    by_cases hl : pyTruthyI lastArg = true
    · simpa [queuePhase, hl, queueAddsOf_append, queueAddsOf] using key
    · by_cases hm : mode = "tracks"
      · simpa [queuePhase, hl, hm, queueAddsOf_append, queueAddsOf] using key
      · by_cases ha : mode = "albums"
        · have hsome : t0.album.isSome := by
            simpa [queueHeaderOk, hl, hm, ha] using hok
          obtain ⟨a, haa⟩ := Option.isSome_iff_exists.mp hsome
          simpa [queuePhase, hl, hm, ha, albumFormatE, haa, queueAddsOf_append,
            queueAddsOf] using key
        · simpa [queuePhase, hl, hm, ha, queueAddsOf_append, queueAddsOf] using key

/-- C1: for a repeat count `times ≥ 1` and a resolved list of `k`
tracks, the Queue Engine issues exactly `times * k` queue-append calls,
ordered as the full `k`-track uri list for iteration 1, then the full
list for iteration 2, and so on; with `times = 1` it posts exactly the
resolved list once, in resolved order. -/
theorem c1_queue_engine_repeats_in_order (tracks : List Track) (times : Int)
    (lastArg : Option Int) (mode : String) (O : Oracle)
    (ht : 1 ≤ times) (hok : queueHeaderOk tracks lastArg mode = true) :
    queueAddsOf (queuePhase false tracks times lastArg mode O).1 =
      (List.replicate times.toNat (tracks.map Track.uri)).flatten ∧
    (queueAddsOf (queuePhase false tracks times lastArg mode O).1).length =
      times.toNat * tracks.length ∧
    (times = 1 → queueAddsOf (queuePhase false tracks times lastArg mode O).1 =
      tracks.map Track.uri) := by
  have h1 := queueAddsOf_queuePhase tracks times lastArg mode O hok
  refine ⟨h1, ?_, ?_⟩
  · rw [h1, length_flatten_replicate, List.length_map]
  · intro h
    subst h
    rw [h1]
    simp

/-- Witness for C1: two repeats of a two-track list emit the four uris
in iteration order. -/
theorem c1_queue_engine_repeats_in_order_witness :
    (1 : Int) ≤ 2 ∧
    queueHeaderOk [⟨some "A", some "B", some "ua", none, none⟩,
      ⟨some "C", some "D", some "uc", none, none⟩] none "tracks" = true ∧
    queueAddsOf (queuePhase false [⟨some "A", some "B", some "ua", none, none⟩,
        ⟨some "C", some "D", some "uc", none, none⟩] 2 none "tracks" stubOracle).1 =
      [some "ua", some "uc", some "ua", some "uc"] := by
  refine ⟨by decide, by decide, ?_⟩
  have h := (c1_queue_engine_repeats_in_order [⟨some "A", some "B", some "ua", none, none⟩,
    ⟨some "C", some "D", some "uc", none, none⟩] 2 none "tracks" stubOracle
    (by decide) (by decide)).1
  rw [h]
  rfl

set_option maxRecDepth 40000 in
/-- C2: `--amnesia` does not bypass the shortcut: lines 574-575 guard
the title/artist overrides on `args.amnesia`, but line 577 computes
`uri = args.uri or mobject.get('uri') or mobject.get('relevant_uri')`
unconditionally, so with an existing track-mode shortcut for
`("blank space", "taylor swift")` and no explicit uri, an amnesia
invocation still resolves through the remembered
`relevant_uri = "spotify:track:123"` — the trace fetches that track
directly and issues no search call. -/
theorem c2_amnesia_still_uses_shortcut_uri :
    queueTrackResolve (some c2ShortcutFile) (some "blank space") (some "taylor swift") none
        true "tracks" =
      .ok (some "blank space", some "taylor swift", some "spotify:track:123") ∧
    (queueTrackGo (some c2ShortcutFile) (some "blank space") (some "taylor swift") none true
        "tracks" 1 none none "" false c2Oracle).1 =
      [.getTrackInfo "123", .echo (tracksHeader [c2Track] 1),
       .queueAdd (some "spotify:track:123")] :=
  ⟨rfl, rfl⟩

/-- C3 (amended): the queue loop posts every attempted track regardless
of statuses, and prints a failure line exactly for the calls whose
status is `>= 300` (so 2xx and 1xx responses alike produce no report),
each line naming that call's track and status code. -/
theorem c3_best_effort_reports_ge300 (tracks : List Track) (times : Int)
    (status : Nat → Nat) :
    queueAddsOf (queueCalls tracks times status) =
      (enqueueAttempts tracks times).map Track.uri ∧
    echoesOf (queueCalls tracks times status) =
      (((enqueueAttempts tracks times).enum).filter (fun p => 300 ≤ status p.1)).map
        (fun p => failLine p.2 (status p.1)) := by
  refine ⟨queueAddsOf_queueCallsAux status (enqueueAttempts tracks times) 0, ?_⟩
  rw [queueCalls, echoesOf_queueCallsAux]
  rfl

/-- Counterexample to C3 as stated: status 100 is not a 2xx status, yet
the queue loop (which only reports `status_code >= 300`) prints no
failure line for it — while the append call itself is still issued. -/
theorem c3_non2xx_unreported_cx :
    ¬ (200 ≤ 100 ∧ 100 < 300) ∧
    echoesOf (queueCalls [⟨some "A", some "B", some "u", none, none⟩] 1 (fun _ => 100)) = [] ∧
    queueAddsOf (queueCalls [⟨some "A", some "B", some "u", none, none⟩] 1 (fun _ => 100)) =
      [some "u"] :=
  ⟨by decide, rfl, rfl⟩

/-- C5 (amended): a last-N request in album mode issues exactly one
network call — the recently-played fetch, made before the mode check —
then rejects with the explicit message, performs no queue-append call,
and exits with code 0 without queuing. -/
theorem c5_album_last_rejects_after_fetch (l : Int) (hl : l ≠ 0) (times : Int)
    (ignore : Bool) (O : Oracle) :
    enqueue none none times (some l) none "" none ignore "albums" O =
      ([.getRecent l, .echo "Can only re-queue tracks, not albums!"], .exited 0) ∧
    queueAddsOf (enqueue none none times (some l) none "" none ignore "albums" O).1 = [] := by
  have h : enqueue none none times (some l) none "" none ignore "albums" O =
      ([.getRecent l, .echo "Can only re-queue tracks, not albums!"], .exited 0) := by
    simp [enqueue, enqueueLast, pyTruthy, pyTruthyI, hl]
  exact ⟨h, by rw [h]; rfl⟩

/-- Witness for C5 (amended) at `last = 1`. -/
theorem c5_album_last_rejects_after_fetch_witness :
    (1 : Int) ≠ 0 ∧
    enqueue none none 3 (some 1) none "" none false "albums" stubOracle =
      ([.getRecent 1, .echo "Can only re-queue tracks, not albums!"], .exited 0) :=
  ⟨by decide, (c5_album_last_rejects_after_fetch 1 (by decide) 3 false stubOracle).1⟩

/-- Counterexample to C5 as stated: the album-mode rejection is not free
of network side-effects — the trace contains the recently-played GET
(issued before the mode check), i.e. one network call, not zero. -/
theorem c5_rejection_not_network_free_cx :
    (enqueue none none 1 (some 1) none "" none false "albums" stubOracle).1 =
      [.getRecent 1, .echo "Can only re-queue tracks, not albums!"] ∧
    ((enqueue none none 1 (some 1) none "" none false "albums" stubOracle).1.filter
      isNetwork) = [.getRecent 1] :=
  ⟨rfl, rfl⟩

/-- Counterexample to C4 as stated: with a top-tracks window holding a
single entry and a requested count of 2, `random.sample(track_data, 2)`
raises `ValueError` — the code does not bound the result by the window
size, it errors. -/
theorem c4_sample_overflow_raises_cx :
    (get_top_tracks c4Oracle.lastfmRaw (max 50 (2 : Int)).toNat).length = 1 ∧
    (enqueue none none 2 none none "u" none false "tracks" c4Oracle).2 =
      .crash "Sample larger than population or is negative" :=
  ⟨rfl, rfl⟩

/-- C4 (amended): when `0 ≤ times ≤ n` (the window size), remote-user
resolution succeeds without error and returns exactly `times` tracks,
drawn at pairwise-distinct window positions (never the same entry
twice) — the hypotheses on `samplePick` state the documented contract of
Python's `random.sample` (a duplicate-free, in-range selection of the
requested size); when `times > n` the call raises instead of bounding
(see the counterexample). -/
theorem c4_sample_bounded_and_distinct (user : String) (times : Int) (O : Oracle)
    (h0 : 0 ≤ times)
    (hn : times ≤ ((get_top_tracks O.lastfmRaw (max 50 times).toNat).length : Int))
    (hlen : O.samplePick.length = times.toNat)
    (hnd : O.samplePick.Nodup)
    (hlt : ∀ i ∈ O.samplePick, i < (get_top_tracks O.lastfmRaw (max 50 times).toNat).length)
    (hnm : ∀ td ∈ get_top_tracks O.lastfmRaw (max 50 times).toNat, td.name ≠ "") :
    ∃ (effs : List Effect) (idxs : List Nat), idxs.Nodup ∧ idxs.length = times.toNat ∧
      times.toNat ≤ (get_top_tracks O.lastfmRaw (max 50 times).toNat).length ∧
      (∀ i ∈ idxs, i < (get_top_tracks O.lastfmRaw (max 50 times).toNat).length) ∧
      enqueueUser user times O = (effs, .go (idxs.map (fun i =>
        ((fun td => (⟨some td.name, some td.artist, O.searchUri td.name td.artist,
          none, none⟩ : Track))
          ((get_top_tracks O.lastfmRaw (max 50 times).toNat).getD i ⟨"", "", 0⟩))))
        (if 0 < times then 1 else times)) := by
  have hcond : (times < 0 ||
      ((get_top_tracks O.lastfmRaw (max 50 times).toNat).length : Int) < times) = false := by
    simp only [Bool.or_eq_false_iff, decide_eq_false_iff_not, not_lt]
    exact ⟨h0, hn⟩
  have hmap := filterMap_get?_eq_map (get_top_tracks O.lastfmRaw (max 50 times).toNat)
    ⟨"", "", 0⟩ O.samplePick hlt
  have hnames : ∀ td ∈ O.samplePick.map (fun i =>
      (get_top_tracks O.lastfmRaw (max 50 times).toNat).getD i ⟨"", "", 0⟩), td.name ≠ "" := by
    intro td htd
    obtain ⟨i, hi, rfl⟩ := List.mem_map.mp htd
    have : (get_top_tracks O.lastfmRaw (max 50 times).toNat).getD i ⟨"", "", 0⟩ ∈
        get_top_tracks O.lastfmRaw (max 50 times).toNat := by
      rw [List.getD_eq_getElem?_getD, List.getElem?_eq_getElem (hlt i hi)]
      exact List.getElem_mem _
    exact hnm _ this
  have hbuilt := userBuild_ok O (O.samplePick.map (fun i =>
    (get_top_tracks O.lastfmRaw (max 50 times).toNat).getD i ⟨"", "", 0⟩)) hnames
  refine ⟨[Effect.lastfmTop user (max 50 times)] ++
    (userBuild (O.samplePick.map (fun i =>
      (get_top_tracks O.lastfmRaw (max 50 times).toNat).getD i ⟨"", "", 0⟩)) O).1,
    O.samplePick, hnd, hlen, ?_, hlt, ?_⟩
  · have := Int.toNat_of_nonneg h0
    omega
  · unfold enqueueUser
    simp only [hcond, Bool.false_eq_true, if_false, hmap]
    rcases hb : userBuild (O.samplePick.map (fun i =>
      (get_top_tracks O.lastfmRaw (max 50 times).toNat).getD i ⟨"", "", 0⟩)) O with ⟨e1, r1⟩
    have : r1 = .ok (((O.samplePick.map (fun i =>
        (get_top_tracks O.lastfmRaw (max 50 times).toNat).getD i ⟨"", "", 0⟩))).map (fun td =>
        (⟨some td.name, some td.artist, O.searchUri td.name td.artist, none, none⟩ : Track))) := by
      have := hbuilt
      rw [hb] at this
      exact this
    subst this
    simp [List.map_map]

/-- Witness for C4 (amended): requesting one track from a one-entry
window succeeds with exactly one sampled track. -/
theorem c4_sample_bounded_and_distinct_witness :
    (0 : Int) ≤ 1 ∧
    (∃ (effs : List Effect) (idxs : List Nat), idxs.Nodup ∧ idxs.length = (1 : Int).toNat ∧
      (1 : Int).toNat ≤ (get_top_tracks c4wOracle.lastfmRaw (max 50 (1 : Int)).toNat).length ∧
      (∀ i ∈ idxs, i < (get_top_tracks c4wOracle.lastfmRaw (max 50 (1 : Int)).toNat).length) ∧
      enqueueUser "u" 1 c4wOracle = (effs, .go (idxs.map (fun i =>
        ((fun td => (⟨some td.name, some td.artist, c4wOracle.searchUri td.name td.artist,
          none, none⟩ : Track))
          ((get_top_tracks c4wOracle.lastfmRaw (max 50 (1 : Int)).toNat).getD i ⟨"", "", 0⟩))))
        (if (0 : Int) < 1 then 1 else 1))) :=
  ⟨by decide,
   c4_sample_bounded_and_distinct "u" 1 c4wOracle (by decide) (by decide) (by decide)
     (by decide) (by decide) (by decide)⟩

/-- Counterexample to C6 as stated: in remote-user resolution the search
for the sampled pair returns no uri, and the resulting track — with an
absent uri — is still passed to the queue-append call (`queueAdd none`
appears in the trace). -/
theorem c6_unplayable_uri_reaches_queue_cx :
    (enqueue none none 1 none none "u" none false "tracks" c6Oracle).1 =
      [.lastfmTop "u" 50, .getSearch "nm%20artist:ar" "track",
       .echo (tracksHeader [⟨some "nm", some "ar", none, none, none⟩] 1),
       .queueAdd none] ∧
    Effect.queueAdd none ∈ (enqueue none none 1 none none "u" none false "tracks" c6Oracle).1 := by
  have h : (enqueue none none 1 none none "u" none false "tracks" c6Oracle).1 =
      [.lastfmTop "u" 50, .getSearch "nm%20artist:ar" "track",
       .echo (tracksHeader [⟨some "nm", some "ar", none, none, none⟩] 1),
       .queueAdd none] := rfl
  exact ⟨h, by rw [h]; simp⟩

/-- C6 (amended): the Queue Engine applies no uri filter — every track
of the resolved list, including one whose uri is empty or absent,
produces a queue-append call carrying exactly that uri value. -/
theorem c6_no_uri_filter (tracks : List Track) (times : Int) (status : Nat → Nat)
    (t : Track) (htmem : t ∈ tracks) (ht : 1 ≤ times) :
    Effect.queueAdd t.uri ∈ queueCalls tracks times status := by
  apply queueAdd_mem_queueCallsAux
  rw [enqueueAttempts_eq_flatten]
  apply List.mem_flatten.mpr
  refine ⟨tracks, ?_, htmem⟩
  apply List.mem_replicate.mpr
  exact ⟨by omega, rfl⟩

/-- Witness for C6 (amended): a track with no uri still reaches the
queue-append call. -/
theorem c6_no_uri_filter_witness :
    (⟨none, none, none, none, none⟩ : Track) ∈ [(⟨none, none, none, none, none⟩ : Track)] ∧
    (1 : Int) ≤ 1 ∧
    Effect.queueAdd none ∈
      queueCalls [(⟨none, none, none, none, none⟩ : Track)] 1 (fun _ => 200) :=
  ⟨by decide, by decide,
   c6_no_uri_filter [⟨none, none, none, none, none⟩] 1 (fun _ => 200)
     ⟨none, none, none, none, none⟩ (by decide) (by decide)⟩

/-- Counterexample to C7 as stated: corrupt content in the groups file
is fatal — `load_prefs` calls `json.load` with no exception handler
(lines 51-52), so the `JSONDecodeError` propagates out of the
module-level load and the invocation crashes instead of degrading to an
empty mapping. -/
theorem c7_corrupt_groups_fatal_cx :
    jsonLoad "x" = .error () ∧
    (load_prefs (some "x") (some (jsonDump defaultPrefsJ))).2 = .error () :=
  ⟨rfl, rfl⟩

set_option maxRecDepth 100000 in
/-- C7 (amended): load robustness is uneven across the tables.
Missing groups/preferences files are bootstrapped with defaults and load
fine; corrupt (or empty, hence unparseable) content in either of them
propagates a `JSONDecodeError` out of `load_prefs` (fatal).  The
shortcuts table is the opposite: corrupt content degrades to the empty
default both in the main queue path and in `remember_track`, but a
missing shortcuts file is fatal in the main queue path, whose `open` is
issued without an existence check (line 564). -/
theorem c7_load_robustness_uneven :
    (∀ (s : String) (p : Option String), jsonLoad s = .error () →
      (load_prefs (some s) p).2 = .error ()) ∧
    (load_prefs none none).2 = .ok (JVal.obj [], defaultPrefsJ) ∧
    (∀ (aT aA aU : Option String) (am : Bool) (mo : String),
      queueTrackResolve none aT aA aU am mo = .error "FileNotFoundError") ∧
    (∀ (s : String) (aT aA aU : Option String) (am : Bool) (mo : String),
      jsonLoad s = .error () →
      queueTrackResolve (some s) aT aA aU am mo = .ok (aT, aA, pyOr aU none)) ∧
    (∀ (s : String) (t a : Option String), jsonLoad s = .error () →
      rememberTrack (some s) t a none "tracks" true =
        ([.echo (notFoundShortcutMsg t a)], .ok (jsonDump rememberDefaultMem))) := by
  refine ⟨?_, rfl, ?_, ?_, ?_⟩
  · intro s p h
    simp [load_prefs, h]
  · intro aT aA aU am mo
    rfl
  · intro s aT aA aU am mo h
    simp only [queueTrackResolve, h]
    by_cases h1 : mo = "tracks"
    · simp [h1, mainDefaultMem, jObjGet, List.lookup, jGetStr, pyOr, pyTruthy]
    · by_cases h2 : mo = "albums"
      · simp [h2, mainDefaultMem, jObjGet, List.lookup, jGetStr, pyOr, pyTruthy]
      · have e1 : (mo == "tracks") = false := by simp [h1]
        have e2 : (mo == "albums") = false := by simp [h2]
        simp [e1, e2, mainDefaultMem, jObjGet, List.lookup, jGetStr, pyOr, pyTruthy]
  · intro s t a h
    simp [rememberTrack, h, pyIndexJ, rememberDefaultMem, List.lookup]

set_option maxRecDepth 100000 in
/-- Witness for C7 (amended), instantiating each quantified conjunct at
the corrupt content `"x"`. -/
theorem c7_load_robustness_uneven_witness :
    (load_prefs (some "x") none).2 = .error () ∧
    queueTrackResolve none (some "t") none none false "tracks" = .error "FileNotFoundError" ∧
    queueTrackResolve (some "x") (some "t") none none false "tracks" =
      .ok (some "t", none, none) ∧
    rememberTrack (some "x") (some "t") none none "tracks" true =
      ([.echo (notFoundShortcutMsg (some "t") none)], .ok (jsonDump rememberDefaultMem)) :=
  ⟨c7_load_robustness_uneven.1 "x" none rfl,
   c7_load_robustness_uneven.2.2.1 (some "t") none none false "tracks",
   c7_load_robustness_uneven.2.2.2.1 "x" (some "t") none none false "tracks" rfl,
   c7_load_robustness_uneven.2.2.2.2 "x" (some "t") none rfl⟩

/-- Counterexample to C9 as stated: on a shortcuts file whose JSON is
the valid document `\x7b\x7d` — so no shortcut exists for any key — the
forget path evaluates `memory[mode]` and raises `KeyError` (line 298),
instead of reporting "not found"; the raise happens before the file
rewrite. -/
theorem c9_forget_raises_keyerror_cx :
    jsonLoad "\x7b\x7d" = .ok (JVal.obj []) ∧
    rememberTrack (some "\x7b\x7d") (some "a") none none "tracks" true =
      ([], .error "KeyError") :=
  ⟨rfl, rfl⟩

/-- C9 (amended): on a parseable shortcuts file whose mode table exists
and lacks the composite key, forget reports "not found", raises nothing,
and rewrites the file with `json.dump` of the unchanged mapping — so the
table is unchanged as a mapping, and byte-for-byte unchanged exactly
when the file was already in canonical dump form; a parseable file
without the mode key raises `KeyError`, and corrupt content is replaced
by the default empty tables. -/
theorem c9_forget_missing_key_reports (s : String) (memory : JVal)
    (tbl : List (String × JVal)) (title artist : Option String) (mode : String)
    (hload : jsonLoad s = .ok memory)
    (htbl : pyIndexJ memory mode = .ok (JVal.obj tbl))
    (habs : List.lookup (pyLower (title.getD "") ++ PART_SEPARATOR ++
      pyLower (artist.getD "")) tbl = none) :
    rememberTrack (some s) title artist none mode true =
      ([.echo (notFoundShortcutMsg title artist)], .ok (jsonDump memory)) := by
  simp [rememberTrack, hload, htbl, habs]

set_option maxRecDepth 40000 in
/-- Witness for C9 (amended): forgetting an absent key on the canonical
empty table file reports "not found" and writes back identical bytes. -/
theorem c9_forget_missing_key_reports_witness :
    jsonLoad (jsonDump rememberDefaultMem) = .ok rememberDefaultMem ∧
    pyIndexJ rememberDefaultMem "tracks" = .ok (JVal.obj []) ∧
    rememberTrack (some (jsonDump rememberDefaultMem)) (some "a") none none "tracks" true =
      ([.echo (notFoundShortcutMsg (some "a") none)], .ok (jsonDump rememberDefaultMem)) :=
  ⟨rfl, rfl,
   c9_forget_missing_key_reports (jsonDump rememberDefaultMem) rememberDefaultMem []
     (some "a") none "tracks" rfl rfl rfl⟩

/-- Counterexample to C8 as stated: a requested index of 0 is in range
(count = 10) and the claim requires it to be used as given, but
`args.offset[0] or -1` treats 0 as falsy, so the code randomizes: the
trace draws `randint(0, 9)`, reports the random choice, and fetches
offset 7 instead of 0. -/
theorem c8_zero_index_randomized_cx :
    ((0 : Int) < 10) ∧
    sourceBrowse "LIBRARY" [0] none c8Browse =
      ([.getMyAlbumsTotal, .randint 0 9, .echo (libraryRandMsg1 10 7), .getMyAlbums 1 7],
       .setUri (some "u:1")) :=
  ⟨by decide, rfl⟩

/-- C8 (amended): in a single-album browse (`ran = 1`), a uniformly
random index (`randint(0, count-1)`) is chosen and reported exactly when
the requested index is out of range, unspecified, **or zero** (zero is
falsy in `args.offset[0] or -1` and is treated as unset); requested
indices in `1..count-1` are used as given — directly in the library
branch, and as the distance `count - idx` in the backlog branch.  The
browse trace itself contains no queue-append call, so the report
precedes any queuing. -/
theorem c8_browse_randomizes_on_nonpositive :
    (∀ (i : Int) (B : BrowseOracle),
      (¬ (0 < i ∧ i < B.libraryTotal) →
        (sourceBrowse "LIBRARY" [i] none B).1 =
          [.getMyAlbumsTotal, .randint 0 (B.libraryTotal - 1),
           .echo (libraryRandMsg1 B.libraryTotal B.randVal), .getMyAlbums 1 B.randVal]) ∧
      ((0 < i ∧ i < B.libraryTotal) →
        (sourceBrowse "LIBRARY" [i] none B).1 = [.getMyAlbumsTotal, .getMyAlbums 1 i]) ∧
      queueAddsOf (sourceBrowse "LIBRARY" [i] none B).1 = []) ∧
    (∀ (i : Int) (u : String) (B : BrowseOracle), u ≠ "" →
      (¬ (0 < i ∧ i < B.backlogTotal) →
        (sourceBrowse "BACKLOG" [i] (some u) B).1.take 4 =
          [.getPlaylistTotal u, .randint 0 (B.backlogTotal - 1),
           .echo (backlogRandMsg1 B.backlogTotal B.randVal),
           .getPlaylistTracks u 1 B.randVal]) ∧
      ((0 < i ∧ i < B.backlogTotal) →
        (sourceBrowse "BACKLOG" [i] (some u) B).1.take 2 =
          [.getPlaylistTotal u, .getPlaylistTracks u 1 (B.backlogTotal - i)])) := by
  constructor
  · intro i B
    have h1 : ¬ (0 < i ∧ i < B.libraryTotal) →
        (sourceBrowse "LIBRARY" [i] none B).1 =
          [.getMyAlbumsTotal, .randint 0 (B.libraryTotal - 1),
           .echo (libraryRandMsg1 B.libraryTotal B.randVal), .getMyAlbums 1 B.randVal] := by
      intro h
      by_cases hi : i = 0
      · subst hi
        simp [sourceBrowse, browseSelect, pyUpper]
        cases B.libraryItems[0]? <;> rfl
      · have hne : (i == 0) = false := by simp [hi]
        have hc : (decide (i < B.libraryTotal) && decide (-1 < i)) = false := by
          simp only [Bool.and_eq_false_iff, decide_eq_false_iff_not, not_lt]
          omega
        simp [sourceBrowse, browseSelect, hne, hc, pyUpper]
        cases B.libraryItems[0]? <;> rfl
    have h2 : (0 < i ∧ i < B.libraryTotal) →
        (sourceBrowse "LIBRARY" [i] none B).1 = [.getMyAlbumsTotal, .getMyAlbums 1 i] := by
      intro h
      have hne : (i == 0) = false := by simp; omega
      have hc : (decide (i < B.libraryTotal) && decide (-1 < i)) = true := by
        simp only [Bool.and_eq_true, decide_eq_true_eq]
        omega
      simp [sourceBrowse, browseSelect, hne, hc, pyUpper]
      cases B.libraryItems[0]? <;> rfl
    refine ⟨h1, h2, ?_⟩
    by_cases hin : 0 < i ∧ i < B.libraryTotal
    · rw [h2 hin]; rfl
    · rw [h1 hin]; rfl
  · intro i u B hu
    constructor
    · intro h
      by_cases hi : i = 0
      · subst hi
        simp [sourceBrowse, browseSelect, pyUpper, pyTruthy, hu]
        cases B.backlogItems[0]? with
        | none => rfl
        | some it =>
          obtain ⟨n2, a2, u2⟩ := it
          cases u2 with
          | none => rfl
          | some s2 => by_cases hs : s2 = "" <;> simp [hs]
      · have hne : (i == 0) = false := by simp [hi]
        have hc : (decide (i < B.backlogTotal) && decide (-1 < i)) = false := by
          simp only [Bool.and_eq_false_iff, decide_eq_false_iff_not, not_lt]
          omega
        simp [sourceBrowse, browseSelect, hne, hc, pyUpper, pyTruthy, hu]
        cases B.backlogItems[0]? with
        | none => rfl
        | some it =>
          obtain ⟨n2, a2, u2⟩ := it
          cases u2 with
          | none => rfl
          | some s2 => by_cases hs : s2 = "" <;> simp [hs]
    · intro h
      have hne : (i == 0) = false := by simp; omega
      have hc : (decide (i < B.backlogTotal) && decide (-1 < i)) = true := by
        simp only [Bool.and_eq_true, decide_eq_true_eq]
        omega
      simp [sourceBrowse, browseSelect, hne, hc, pyUpper, pyTruthy, hu]
      cases B.backlogItems[0]? with
      | none => rfl
      | some it =>
        obtain ⟨n2, a2, u2⟩ := it
        cases u2 with
        | none => rfl
        | some s2 => by_cases hs : s2 = "" <;> simp [hs]

/-- Witness for C8 (amended): with count 10, requested index 0 is
randomized (to the drawn 7) and requested index 3 is used as given. -/
theorem c8_browse_randomizes_on_nonpositive_witness :
    ¬ ((0 : Int) < 0 ∧ (0 : Int) < (10 : Int)) ∧
    ((0 : Int) < 3 ∧ (3 : Int) < (10 : Int)) ∧
    (sourceBrowse "LIBRARY" [0] none c8Browse).1 =
      [.getMyAlbumsTotal, .randint 0 (c8Browse.libraryTotal - 1),
       .echo (libraryRandMsg1 c8Browse.libraryTotal c8Browse.randVal),
       .getMyAlbums 1 c8Browse.randVal] ∧
    (sourceBrowse "LIBRARY" [3] none c8Browse).1 = [.getMyAlbumsTotal, .getMyAlbums 1 3] := by
  refine ⟨by decide, by decide, ?_, ?_⟩
  · exact ((c8_browse_randomizes_on_nonpositive.1 0 c8Browse).1 (by decide))
  · exact ((c8_browse_randomizes_on_nonpositive.1 3 c8Browse).2.1 (by decide))

lemma takeWhile_le_length {α : Type} (p : α → Bool) :
    ∀ (l : List α), (l.takeWhile p).length ≤ l.length := by
  intro l
  induction l with
  | nil => simp
  | cons c rest ih =>
    by_cases hc : p c <;> simp [List.takeWhile, hc]
    omega

/-- C10: `get_top_tracks` with limit `L ≥ 1` (the model of the
`unlimited[limit - 1]` index; every call site passes `L ≥ 25`) returns a
prefix of the response of at least `min L n` entries; every returned
entry at position `≥ L` has the same playcount as the `L`-th entry, and
the scan stops at the first entry whose playcount differs — the
tie-extension past the limit. -/
theorem c10_top_tracks_tie_extension (raw : List TopTrack) (L : Nat) (_hL : 1 ≤ L) :
    min L raw.length ≤ (get_top_tracks raw L).length ∧
    get_top_tracks raw L = raw.take ((get_top_tracks raw L).length) ∧
    (∀ j, L ≤ j → j < (get_top_tracks raw L).length →
      (raw.getD j ⟨"", "", 0⟩).plays = (raw.getD (L - 1) ⟨"", "", 0⟩).plays) ∧
    ((get_top_tracks raw L).length < raw.length →
      (raw.getD ((get_top_tracks raw L).length) ⟨"", "", 0⟩).plays ≠
        (raw.getD (L - 1) ⟨"", "", 0⟩).plays) := by
  by_cases hcase : L < raw.length
  · have hdef : get_top_tracks raw L = raw.take (L +
        ((raw.drop L).takeWhile
          (fun l => l.plays == (raw.getD (L - 1) ⟨"", "", 0⟩).plays)).length) := by
      simp [get_top_tracks, hcase]
    have hwle : ((raw.drop L).takeWhile
        (fun l => l.plays == (raw.getD (L - 1) ⟨"", "", 0⟩).plays)).length ≤
        (raw.drop L).length := takeWhile_le_length _ _
    have hdroplen : (raw.drop L).length = raw.length - L := List.length_drop L raw
    have hlen : (get_top_tracks raw L).length = L +
        ((raw.drop L).takeWhile
          (fun l => l.plays == (raw.getD (L - 1) ⟨"", "", 0⟩).plays)).length := by
      rw [hdef, List.length_take]
      omega
    refine ⟨by omega, by rw [hlen, hdef], ?_, ?_⟩
    · intro j hj1 hj2
      rw [hlen] at hj2
      have hk : j - L < ((raw.drop L).takeWhile
          (fun l => l.plays == (raw.getD (L - 1) ⟨"", "", 0⟩).plays)).length := by omega
      have hm := (takeWhile_getD
        (fun l => l.plays == (raw.getD (L - 1) ⟨"", "", 0⟩).plays)
        (raw.drop L) (j - L) ⟨"", "", 0⟩ hk).2
      rw [getD_drop] at hm
      have hjL : L + (j - L) = j := by omega
      rw [hjL] at hm
      simpa using hm
    · intro hstop
      rw [hlen] at hstop
      have he : ((raw.drop L).takeWhile
          (fun l => l.plays == (raw.getD (L - 1) ⟨"", "", 0⟩).plays)).length <
          (raw.drop L).length := by omega
      have hm := takeWhile_stop
        (fun l => l.plays == (raw.getD (L - 1) ⟨"", "", 0⟩).plays)
        (raw.drop L) ⟨"", "", 0⟩ he
      rw [getD_drop] at hm
      rw [hlen]
      simpa using hm
  · have hdef : get_top_tracks raw L = raw.take L := by
      simp [get_top_tracks, hcase]
    have hfull : raw.take L = raw := List.take_of_length_le (by omega)
    have hlen : (get_top_tracks raw L).length = raw.length := by rw [hdef, hfull]
    refine ⟨by omega, ?_, ?_, ?_⟩
    · rw [hlen, hdef, hfull, List.take_length]
    · intro j hj1 hj2
      rw [hlen] at hj2
      omega
    · intro hstop
      rw [hlen] at hstop
      omega

/-- Witness for C10 on a five-entry window with limit 2: the 4-playcount
tie extends the result to four entries and stops at the 3-playcount
entry. -/
theorem c10_top_tracks_tie_extension_witness :
    1 ≤ 2 ∧
    get_top_tracks [⟨"a", "a", 5⟩, ⟨"b", "b", 4⟩, ⟨"c", "c", 4⟩, ⟨"d", "d", 4⟩,
      ⟨"e", "e", 3⟩] 2 =
      [⟨"a", "a", 5⟩, ⟨"b", "b", 4⟩, ⟨"c", "c", 4⟩, ⟨"d", "d", 4⟩] ∧
    (min 2 ([⟨"a", "a", 5⟩, ⟨"b", "b", 4⟩, ⟨"c", "c", 4⟩, ⟨"d", "d", 4⟩,
        ⟨"e", "e", 3⟩] : List TopTrack).length ≤
      (get_top_tracks [⟨"a", "a", 5⟩, ⟨"b", "b", 4⟩, ⟨"c", "c", 4⟩, ⟨"d", "d", 4⟩,
        ⟨"e", "e", 3⟩] 2).length) :=
  ⟨by decide, by decide,
   (c10_top_tracks_tie_extension [⟨"a", "a", 5⟩, ⟨"b", "b", 4⟩, ⟨"c", "c", 4⟩,
     ⟨"d", "d", 4⟩, ⟨"e", "e", 3⟩] 2 (by decide)).1⟩
